import Mathlib

/-!
Verification of the Session & Credential Authority and the Per-Client
Admission Controller of the video-analytics API gateway, as a shallow
embedding of `src/api-gateway/src` (auth.rs, error.rs, models.rs, config.rs,
middleware/auth.rs, middleware/rate_limit.rs, main.rs).

Time is modelled as `Int` seconds (the `timestamp()` view of `chrono`
datetimes), UUIDs as `Nat`, and the external crates (`bcrypt`,
`jsonwebtoken`, `governor`) as ideal versions of their documented contracts,
noted at each definition.
-/

namespace VAGateway

/-- models.rs `UserRole`. -/
inductive UserRole
  | Admin
  | User
  | Viewer
deriving DecidableEq, Repr

/-- models.rs `Claims`: the JWT payload {sub, email, role, exp, iat}. -/
structure Claims where
  sub : String
  email : String
  role : UserRole
  exp : Int
  iat : Int
deriving DecidableEq, Repr

/-- Modelled: the `jsonwebtoken` crate is external. Its HMAC signature is
modelled as an ideal (unforgeable) MAC: a signature is, abstractly, the pair
of the signing secret and the signed payload, and signature verification is
equality of that pair with the expected one. -/
structure Signature where
  secret : String
  payload : Claims
deriving DecidableEq, Repr

/-- A compact JWT on the wire: either a structurally well-formed signed
claim set, or a malformed/truncated string that fails parsing. -/
inductive Token
  | signed (claims : Claims) (sig : Signature)
  | malformed (raw : String)
deriving DecidableEq, Repr

/-- Modelled: the `bcrypt` crate is external. A stored hash is either the
ideal (one-way, collision-free) hash of a preimage, or a malformed string
that `bcrypt::verify` would reject with an error. -/
inductive Hashed (α : Type)
  | hashOf (preimage : α)
  | malformed (raw : String)
deriving DecidableEq, Repr

/-- bcrypt::hash (the cost factor does not affect the functional result). -/
def bcryptHash {α : Type} (x : α) : Hashed α := .hashOf x

/-- bcrypt::verify: `Ok(bool)` on a well-formed stored hash, `Err` on a
malformed one, as the crate does. -/
def bcryptVerify {α : Type} [DecidableEq α] (x : α) : Hashed α → Except String Bool
  | .hashOf p => .ok (decide (x = p))
  | .malformed _ => .error "Invalid hash format"

/-- models.rs `User` (Uuid as Nat, timestamps as Int seconds). -/
structure User where
  id : Nat
  email : String
  password_hash : Hashed String
  role : UserRole
  created_at : Int
  updated_at : Int
deriving DecidableEq, Repr

/-- models.rs `UserSession`: one stored refresh credential. -/
structure UserSession where
  id : Nat
  user_id : Nat
  token_hash : Hashed Token
  expires_at : Int
  created_at : Int
deriving DecidableEq, Repr

/-- error.rs `AppError` (the crate-wrapping variants carry their message). -/
inductive AppError
  | Database (msg : String)
  | Authentication (msg : String)
  | Authorization (msg : String)
  | Validation (msg : String)
  | NotFound (msg : String)
  | Conflict (msg : String)
  | RateLimited
  | Internal (msg : String)
  | BadRequest (msg : String)
  | ServiceUnavailable (msg : String)
  | Jwt (msg : String)
  | Redis (msg : String)
  | HttpClient (msg : String)
  | Serialization (msg : String)
  | Config (msg : String)
deriving DecidableEq, Repr

/-- error.rs `IntoResponse for AppError`: the HTTP status of each variant. -/
def AppError.statusCode : AppError → Nat
  | .Database _ => 500
  | .Authentication _ => 401
  | .Authorization _ => 403
  | .Validation _ => 400
  | .NotFound _ => 404
  | .Conflict _ => 409
  | .RateLimited => 429
  | .Internal _ => 500
  | .BadRequest _ => 400
  | .ServiceUnavailable _ => 503
  | .Jwt _ => 401
  | .Redis _ => 500
  | .HttpClient _ => 502
  | .Serialization _ => 500
  | .Config _ => 500

/-- error.rs `IntoResponse for AppError`: the structured-envelope error code. -/
def AppError.errorCode : AppError → String
  | .Database _ => "DATABASE_ERROR"
  | .Authentication _ => "AUTHENTICATION_ERROR"
  | .Authorization _ => "AUTHORIZATION_ERROR"
  | .Validation _ => "VALIDATION_ERROR"
  | .NotFound _ => "NOT_FOUND"
  | .Conflict _ => "CONFLICT"
  | .RateLimited => "RATE_LIMITED"
  | .Internal _ => "INTERNAL_ERROR"
  | .BadRequest _ => "BAD_REQUEST"
  | .ServiceUnavailable _ => "SERVICE_UNAVAILABLE"
  | .Jwt _ => "INVALID_TOKEN"
  | .Redis _ => "CACHE_ERROR"
  | .HttpClient _ => "EXTERNAL_SERVICE_ERROR"
  | .Serialization _ => "DATA_PROCESSING_ERROR"
  | .Config _ => "CONFIG_ERROR"

/-- config.rs `RateLimitConfig`. -/
structure RateLimitConfig where
  requests_per_minute : Nat
  burst_size : Nat
deriving DecidableEq, Repr

/-- config.rs `AuthConfig`. -/
structure AuthConfig where
  jwt_expiry_hours : Int
  refresh_token_expiry_days : Int
  bcrypt_cost : Nat
deriving DecidableEq, Repr

/-- config.rs `Config` (the fields the core uses). -/
structure Config where
  port : Nat
  jwt_secret : String
  rate_limit : RateLimitConfig
  auth : AuthConfig
deriving DecidableEq, Repr

/-- config.rs `Config::load` fallback values when no environment variable is
set: port 8080, RATE_LIMIT_RPM 60, RATE_LIMIT_BURST 10, JWT_EXPIRY_HOURS 24,
REFRESH_TOKEN_EXPIRY_DAYS 30, BCRYPT_COST 12. -/
def defaultConfig : Config :=
  { port := 8080
    jwt_secret := "your-super-secure-jwt-secret-key-change-in-production"
    rate_limit := { requests_per_minute := 60, burst_size := 10 }
    auth := { jwt_expiry_hours := 24, refresh_token_expiry_days := 30, bcrypt_cost := 12 } }

/-- jsonwebtoken `encode` with `Header::default()`: sign the claims with the
secret (ideal-MAC model). -/
def encodeJwt (secret : String) (claims : Claims) : Token :=
  .signed claims { secret := secret, payload := claims }

/-- jsonwebtoken `decode::<Claims>` with `Validation::default()`: parse
failure on a malformed token, signature check, then `exp` validation against
the current time. (The crate's default 60-second clock-skew leeway on `exp`
is abstracted to zero.) Error strings name the crate's `ErrorKind`. -/
def decodeJwt (token : Token) (secret : String) (now : Int) : Except String Claims :=
  match token with
  | .malformed _ => .error "InvalidToken"
  | .signed claims sig =>
    if sig.secret = secret ∧ sig.payload = claims then
      if claims.exp < now then .error "ExpiredSignature" else .ok claims
    else .error "InvalidSignature"

/-- auth.rs `generate_access_token` (lines 195-214). Note the expiry is the
hardcoded `Duration::hours(24)` of line 197; the function does not receive
the configuration, only the secret, exactly as in the source. Returns the
token together with the `expires_at` timestamp. -/
def generate_access_token (user : User) (secret : String) (now : Int) : Token × Int :=
  let expires_at := now + 24 * 3600
  let claims : Claims :=
    { sub := toString user.id, email := user.email, role := user.role
      exp := expires_at, iat := now }
  (encodeJwt secret claims, expires_at)

/-- auth.rs `generate_refresh_token` (lines 216-235): a JWT whose expiry is
`now + refresh_token_expiry_days` days, signed with the same secret. -/
def generate_refresh_token (user : User) (secret : String) (refreshDays : Int) (now : Int) :
    Token :=
  let expires_at := now + refreshDays * 86400
  encodeJwt secret
    { sub := toString user.id, email := user.email, role := user.role
      exp := expires_at, iat := now }

/-- auth.rs `verify_token` (lines 237-245): decode with the configured
secret; a crate error becomes `AppError::Jwt` via `#[from]`. -/
def verify_token (token : Token) (secret : String) (now : Int) : Except AppError Claims :=
  match decodeJwt token secret now with
  | .error e => .error (.Jwt e)
  | .ok claims => .ok claims

/-- The relational store the Authority reads and writes: the `users` and
`user_sessions` tables, as ordered row lists. -/
structure Store where
  users : List User
  sessions : List UserSession
deriving DecidableEq, Repr

/-- `SELECT * FROM users WHERE email = $1 ... fetch_optional`. -/
def findUserByEmail (users : List User) (email : String) : Option User :=
  users.find? (fun u => u.email == email)

/-- `SELECT * FROM users WHERE id = $1 ... fetch_optional`. -/
def findUserById (users : List User) (uid : Nat) : Option User :=
  users.find? (fun u => u.id == uid)

/-- `Uuid::new_v4()` for a session row, modelled as an identifier fresh for
the store (randomness abstracted to freshness). -/
def freshSessionId (db : Store) : Nat :=
  (db.sessions.map (fun s => s.id)).foldr max 0 + 1

/-- Decimal digit accumulator for `parseUuid`. -/
def parseUuidAux : List Char → Nat → Option Nat
  | [], acc => some acc
  | c :: cs, acc =>
    if c.isDigit then parseUuidAux cs (acc * 10 + (c.toNat - 48)) else none

/-- `Uuid::parse_str` on a claims `sub` field (Uuid modelled as Nat, so its
textual form is the decimal numeral; anything else fails to parse). -/
def parseUuid (s : String) : Option Nat :=
  match s.data with
  | [] => none
  | cs => parseUuidAux cs 0

/-- models.rs `AuthResponse`. -/
structure AuthResponse where
  access_token : Token
  refresh_token : Token
  user : User
  expires_at : Int
deriving DecidableEq, Repr

/-- models.rs `LoginInput`. -/
structure LoginInput where
  email : String
  password : String
deriving DecidableEq, Repr

/-- Modelled: the `validator` crate is external; its `#[validate(email)]`
check is abstracted to requiring an `@`. -/
def isValidEmail (e : String) : Bool := e.data.contains '@'

/-- auth.rs `login` (lines 73-127). State-passing model of the handler: the
result value together with the store after the call (database failures other
than row absence are outside the model). On success a fresh session row is
inserted holding the bcrypt hash of the refresh token. -/
def login (db : Store) (input : LoginInput) (now : Int) (cfg : Config) :
    Except AppError AuthResponse × Store :=
  if isValidEmail input.email then
    match findUserByEmail db.users input.email with
    | none => (.error (.Authentication "Invalid credentials"), db)
    | some user =>
      match bcryptVerify input.password user.password_hash with
      | .error e => (.error (.Internal ("Password verification failed: " ++ e)), db)
      | .ok false => (.error (.Authentication "Invalid credentials"), db)
      | .ok true =>
        let tokExp := generate_access_token user cfg.jwt_secret now
        let refresh_token :=
          generate_refresh_token user cfg.jwt_secret cfg.auth.refresh_token_expiry_days now
        let session_id := freshSessionId db
        let refresh_token_hash := bcryptHash refresh_token
        let session : UserSession :=
          { id := session_id, user_id := user.id, token_hash := refresh_token_hash
            expires_at := now + cfg.auth.refresh_token_expiry_days * 86400
            created_at := now }
        (.ok { access_token := tokExp.1, refresh_token := refresh_token
               user := user, expires_at := tokExp.2 },
         { db with sessions := db.sessions ++ [session] })
  else (.error (.Validation "email: invalid email"), db)

/-- The `Authorization` header as the handlers see it after the two
extraction steps of auth.rs lines 134-142: absent, non-UTF-8 bytes, present
but without the `Bearer ` tag, or a bearer token. -/
inductive AuthHeader
  | missing
  | invalidBytes
  | notBearer (raw : String)
  | bearer (token : Token)
deriving DecidableEq, Repr

/-- The scan predicate of auth.rs lines 152-157:
`verify(refresh_token, &session.token_hash).unwrap_or(false)` — a hasher
error is silently treated as a non-match. -/
def refreshMatches (tok : Token) (s : UserSession) : Bool :=
  ((bcryptVerify tok s.token_hash).toOption.getD false)

/-- auth.rs `refresh_token` handler (lines 129-193). Scans all unexpired
sessions (`WHERE expires_at > NOW()`) for one whose stored hash verifies the
presented token, loads the session's user with `fetch_one` (which yields
`sqlx::Error::RowNotFound`, surfaced as `AppError::Database`, when the user
row is gone), then rotates the matched session row in place. -/
def refresh_token (db : Store) (header : AuthHeader) (now : Int) (cfg : Config) :
    Except AppError AuthResponse × Store :=
  match header with
  | .missing => (.error (.Authentication "Missing authorization header"), db)
  | .invalidBytes => (.error (.Authentication "Invalid authorization header"), db)
  | .notBearer _ => (.error (.Authentication "Invalid authorization format"), db)
  | .bearer tok =>
    let sessions := db.sessions.filter (fun s => now < s.expires_at)
    match sessions.find? (refreshMatches tok) with
    | none => (.error (.Authentication "Invalid refresh token"), db)
    | some session =>
      match findUserById db.users session.user_id with
      | none => (.error (.Database "RowNotFound"), db)
      | some user =>
        let tokExp := generate_access_token user cfg.jwt_secret now
        let new_refresh_token :=
          generate_refresh_token user cfg.jwt_secret cfg.auth.refresh_token_expiry_days now
        let new_refresh_token_hash := bcryptHash new_refresh_token
        let newExpiry := now + cfg.auth.refresh_token_expiry_days * 86400
        let sessions' := db.sessions.map (fun s =>
          if s.id == session.id then
            { s with token_hash := new_refresh_token_hash, expires_at := newExpiry }
          else s)
        (.ok { access_token := tokExp.1, refresh_token := new_refresh_token
               user := user, expires_at := tokExp.2 },
         { db with sessions := sessions' })

/-- auth.rs `get_user_from_token` (lines 247-266): verify, parse the subject
id, then a `fetch_optional` user lookup whose absence is an
`AuthenticationError`. -/
def get_user_from_token (token : Token) (secret : String) (db : Store) (now : Int) :
    Except AppError User :=
  match verify_token token secret now with
  | .error e => .error e
  | .ok claims =>
    match parseUuid claims.sub with
    | none => .error (.Authentication "Invalid user ID in token")
    | some uid =>
      match findUserById db.users uid with
      | none => .error (.Authentication "User not found")
      | some user => .ok user

/-- middleware/auth.rs `admin_auth_middleware` (lines 50-81), parameterized
by the downstream handler `next`; `next` runs only when every check passes
and the resolved user's role is `Admin`. -/
def admin_auth_middleware {ρ : Type} (db : Store) (header : AuthHeader) (now : Int)
    (cfg : Config) (next : User → Claims → ρ) : Except AppError ρ :=
  match header with
  | .missing => .error (.Authentication "Missing authorization header")
  | .invalidBytes => .error (.Authentication "Invalid authorization header")
  | .notBearer _ => .error (.Authentication "Invalid authorization format")
  | .bearer tok =>
    match get_user_from_token tok cfg.jwt_secret db now with
    | .error e => .error e
    | .ok user =>
      match verify_token tok cfg.jwt_secret now with
      | .error e => .error e
      | .ok claims =>
        if user.role = UserRole.Admin then .ok (next user claims)
        else .error (.Authorization "Admin access required")

/-- `NonZeroU32::new`: `None` exactly when the u32 argument is zero. -/
def NonZeroU32.new (n : Nat) : Option Nat :=
  if n = 0 then none else some n

/-- Modelled: the `governor` crate is external. `Quota::per_minute(n)` (and
`per_second`) set a sustained replenishment rate of one cell every
`period / n` and, per the crate's documentation, a maximum burst of `n`
cells. -/
structure Quota where
  maxBurst : Nat
  replenishIntervalNs : Nat
deriving DecidableEq, Repr

/-- governor `Quota::per_minute` on an already-nonzero cell count. -/
def Quota.perMinuteNZ (n : Nat) : Quota :=
  { maxBurst := n, replenishIntervalNs := 60000000000 / n }

/-- governor `Quota::per_second` on an already-nonzero cell count. -/
def Quota.perSecondNZ (n : Nat) : Quota :=
  { maxBurst := n, replenishIntervalNs := 1000000000 / n }

/-- rate_limit.rs `RateLimitLayer::new` (lines 34-36):
`with_quota(Quota::per_minute(NonZeroU32::new(60).unwrap()))`. `none` models
the `.unwrap()` panic (never reached, since 60 ≠ 0). The layer's behaviour
is fully determined by its quota plus the per-IP limiter map, modelled
separately below. -/
def RateLimitLayer.new : Option Quota :=
  (NonZeroU32.new 60).map Quota.perMinuteNZ

/-- rate_limit.rs `RateLimitLayer::per_minute` (lines 45-48):
`NonZeroU32::new(limit).unwrap_or(NonZeroU32::new(1).unwrap())`. `none`
models a panic of the inner `.unwrap()`. -/
def RateLimitLayer.per_minute (limit : Nat) : Option Quota :=
  (NonZeroU32.new 1).map (fun one => Quota.perMinuteNZ ((NonZeroU32.new limit).getD one))

/-- rate_limit.rs `RateLimitLayer::per_second` (lines 50-53). -/
def RateLimitLayer.per_second (limit : Nat) : Option Quota :=
  (NonZeroU32.new 1).map (fun one => Quota.perSecondNZ ((NonZeroU32.new limit).getD one))

/-- The shared `ip_limiters: HashMap<String, RateLimiter>` at one instant:
each limiter's state is the number of cells still available at that instant
(a fresh GCRA limiter under requests with no elapsed time admits exactly its
burst capacity, so the remaining-cells view is exact for rapid succession). -/
structure AdmissionState where
  limiters : List (String × Nat)
deriving DecidableEq, Repr

/-- The freshly constructed layer's empty limiter map (rate_limit.rs line 41). -/
def AdmissionState.empty : AdmissionState := { limiters := [] }

/-- Assoc-list lookup for the limiter map. -/
def lookupLimiter (m : List (String × Nat)) (ip : String) : Option Nat :=
  (m.find? (fun e => e.fst == ip)).map (fun e => e.snd)

/-- Assoc-list overwrite for the limiter map. -/
def setLimiter (m : List (String × Nat)) (ip : String) (v : Nat) : List (String × Nat) :=
  m.map (fun e => if e.fst == ip then (e.fst, v) else e)

/-- rate_limit.rs `get_or_create_limiter` (lines 55-61): entry-or-insert of a
fresh `RateLimiter::direct(quota)` — a full bucket of `maxBurst` cells. -/
def get_or_create_limiter (q : Quota) (st : AdmissionState) (ip : String) :
    Nat × AdmissionState :=
  match lookupLimiter st.limiters ip with
  | some cells => (cells, st)
  | none => (q.maxBurst, { limiters := st.limiters ++ [(ip, q.maxBurst)] })

/-- governor `RateLimiter::check` at a fixed instant: admit and consume one
cell when one is available, reject otherwise. -/
def limiterCheck (cells : Nat) : Bool × Nat :=
  if cells = 0 then (false, 0) else (true, cells - 1)

/-- rate_limit.rs `RateLimitService::call` (lines 95-119) for one request
whose derived client identity is `ip`: `true` means the request is admitted
and forwarded; `false` means it is rejected with `AppError::RateLimited`
(429, code RATE_LIMITED) without invoking downstream handlers. -/
def rateLimitCall (q : Quota) (st : AdmissionState) (ip : String) :
    Bool × AdmissionState :=
  let (cells, st₁) := get_or_create_limiter q st ip
  let (admitted, cells') := limiterCheck cells
  (admitted, { limiters := setLimiter st₁.limiters ip cells' })

/-- A sequence of requests in rapid succession (no meaningful elapsed time,
so no replenishment): the per-request admit/reject verdicts, in order. -/
def rateLimitCalls (q : Quota) (st : AdmissionState) : List String → List Bool × AdmissionState
  | [] => ([], st)
  | ip :: rest =>
    let (admitted, st') := rateLimitCall q st ip
    let (verdicts, stEnd) := rateLimitCalls q st' rest
    (admitted :: verdicts, stEnd)

/-! Concrete fixtures for witnesses and counterexamples. -/

/-- A registered non-admin user. -/
def userA : User :=
  { id := 1, email := "a@x.com", password_hash := bcryptHash "password123"
    role := .User, created_at := 0, updated_at := 0 }

/-- A store holding only `userA`. -/
def storeA : Store := { users := [userA], sessions := [] }

/-- A presented refresh credential. The refresh handler never decodes the
presented token — only its bcrypt hash comparison matters — so an opaque
value models it. -/
def presentedTok : Token := .malformed "opaque-refresh-token"

/-- The default configuration with the access-token lifetime configured to
one hour (JWT_EXPIRY_HOURS=1). -/
def cfgHr1 : Config :=
  { defaultConfig with auth := { defaultConfig.auth with jwt_expiry_hours := 1 } }

/-- An unexpired session whose hash matches `presentedTok` but whose owner
id (99) has no user row. -/
def sessOrphan : UserSession :=
  { id := 7, user_id := 99, token_hash := bcryptHash presentedTok
    expires_at := 1000, created_at := 0 }

/-- Store for the missing-user refresh scenario. -/
def dbOrphan : Store := { users := [], sessions := [sessOrphan] }

/-- An unexpired session of `userA` matching `presentedTok`. -/
def sessA : UserSession :=
  { id := 7, user_id := 1, token_hash := bcryptHash presentedTok
    expires_at := 1000, created_at := 0 }

/-- Store for the rotation scenario. -/
def dbRotate : Store := { users := [userA], sessions := [sessA] }

/-- An unexpired session whose stored hash is malformed, so the hasher
errors on every comparison against it. -/
def sessBadHash : UserSession :=
  { id := 8, user_id := 1, token_hash := .malformed "garbage"
    expires_at := 1000, created_at := 0 }

/-- Store for the hasher-failure scenario. -/
def dbBadHash : Store := { users := [userA], sessions := [sessBadHash] }

/-- Store with an expired matching session and an unexpired non-matching
one: no unexpired session verifies `presentedTok`. -/
def dbNoMatch : Store :=
  { users := [userA]
    sessions :=
      [ { id := 2, user_id := 1, token_hash := bcryptHash presentedTok
          expires_at := -5, created_at := -10 }
      , { id := 3, user_id := 1, token_hash := bcryptHash (Token.malformed "other")
          expires_at := 1000, created_at := 0 } ] }

end VAGateway

namespace VAGateway

/-- C1: the spec scenario "quota 60/min, burst 10: 11 rapid requests from one
IP → first 10 admitted, 11th returns 429" fails on the code: `create_app`
installs `RateLimitLayer::new()`, whose quota is `Quota::per_minute(60)` with
a burst capacity of 60 (the configured `burst_size` of 10 is never wired into
the layer), so all 11 rapid requests from one client are admitted and none is
rejected with 429. -/
theorem rapid_requests_all_admitted_default_layer :
    RateLimitLayer.new = some (Quota.perMinuteNZ 60) ∧
    (rateLimitCalls (Quota.perMinuteNZ 60) AdmissionState.empty
        (List.replicate 11 "203.0.113.7")).1 = List.replicate 11 true := by
  constructor
  · rfl
  · decide

/-- C2: the access-token expiry ignores the configured lifetime: with
`jwt_expiry_hours` configured to 1, a login at time 0 still returns
`expires_at = 86400` (the hardcoded 24 hours of auth.rs line 197), not
`3600`. -/
theorem access_token_expiry_ignores_configured_lifetime :
    ((login storeA { email := "a@x.com", password := "password123" } 0 cfgHr1).1.map
        (fun r => r.expires_at)) = .ok 86400 ∧
    cfgHr1.auth.jwt_expiry_hours = 1 ∧ (86400 : Int) ≠ 0 + 1 * 3600 := by
  refine ⟨?_, rfl, by decide⟩
  rfl

/-- C10: both rate-limit layer constructors are total (the modelled
`.unwrap()` panic is unreachable), a zero limit is silently replaced by a
quota of one cell per interval, and a positive limit is used as given. -/
theorem rate_limit_ctors_total_and_zero_is_one (n : Nat) :
    (∃ q, RateLimitLayer.per_minute n = some q) ∧
    (∃ q, RateLimitLayer.per_second n = some q) ∧
    RateLimitLayer.per_minute 0 = some (Quota.perMinuteNZ 1) ∧
    RateLimitLayer.per_second 0 = some (Quota.perSecondNZ 1) ∧
    (0 < n →
      RateLimitLayer.per_minute n = some (Quota.perMinuteNZ n) ∧
      RateLimitLayer.per_second n = some (Quota.perSecondNZ n)) := by
  refine ⟨⟨_, rfl⟩, ⟨_, rfl⟩, rfl, rfl, ?_⟩
  intro hn
  have hnz : n ≠ 0 := Nat.pos_iff_ne_zero.mp hn
  constructor
  · simp [RateLimitLayer.per_minute, NonZeroU32.new, hnz]
  · simp [RateLimitLayer.per_second, NonZeroU32.new, hnz]

/-- C10 witness: the constructors evaluated at 0 and at 5. -/
theorem rate_limit_ctors_total_and_zero_is_one_witness :
    RateLimitLayer.per_minute 0 = some (Quota.perMinuteNZ 1) ∧
    RateLimitLayer.per_minute 5 = some (Quota.perMinuteNZ 5) ∧
    RateLimitLayer.per_second 5 = some (Quota.perSecondNZ 5) :=
  ⟨(rate_limit_ctors_total_and_zero_is_one 0).2.2.1,
   (rate_limit_ctors_total_and_zero_is_one 5).2.2.2.2 (by decide)⟩

/-- C4: for any two worlds — one where the login email is unregistered, one
where it resolves to a user whose password check fails — the login error is
the very same value: `Authentication "Invalid credentials"`, HTTP 401. The
response reveals nothing about whether the email exists. -/
theorem login_uniform_invalid_credentials (db₁ db₂ : Store) (input : LoginInput)
    (now₁ now₂ : Int) (cfg₁ cfg₂ : Config) (u : User)
    (hmail : isValidEmail input.email = true)
    (h₁ : findUserByEmail db₁.users input.email = none)
    (h₂ : findUserByEmail db₂.users input.email = some u)
    (hpw : bcryptVerify input.password u.password_hash = .ok false) :
    (login db₁ input now₁ cfg₁).1 = (login db₂ input now₂ cfg₂).1 ∧
    (login db₁ input now₁ cfg₁).1 = .error (.Authentication "Invalid credentials") ∧
    (AppError.Authentication "Invalid credentials").statusCode = 401 := by
  have e₁ : (login db₁ input now₁ cfg₁).1 = .error (.Authentication "Invalid credentials") := by
    simp [login, hmail, h₁]
  have e₂ : (login db₂ input now₂ cfg₂).1 = .error (.Authentication "Invalid credentials") := by
    simp [login, hmail, h₂, hpw]
  exact ⟨e₁.trans e₂.symm, e₁, rfl⟩

/-- C4 witness: unknown email in an empty store versus wrong password for
`userA` produce the identical 401 error. -/
theorem login_uniform_invalid_credentials_witness :
    (login { users := [], sessions := [] } { email := "a@x.com", password := "wrong" } 0
        defaultConfig).1 =
      (login storeA { email := "a@x.com", password := "wrong" } 5 defaultConfig).1 ∧
    (login { users := [], sessions := [] } { email := "a@x.com", password := "wrong" } 0
        defaultConfig).1 = .error (.Authentication "Invalid credentials") ∧
    (AppError.Authentication "Invalid credentials").statusCode = 401 :=
  login_uniform_invalid_credentials { users := [], sessions := [] } storeA
    { email := "a@x.com", password := "wrong" } 0 5 defaultConfig defaultConfig userA
    (by decide) rfl rfl rfl

/-- C6: when no unexpired session's stored hash verifies the presented token
(hasher errors counting as non-matches), refresh fails with
`Authentication "Invalid refresh token"` (401) and returns the store exactly
as it was: no session row inserted, updated, or deleted. -/
theorem refresh_no_match_leaves_store_unchanged (db : Store) (tok : Token) (now : Int)
    (cfg : Config)
    (h : (db.sessions.filter (fun s => now < s.expires_at)).find? (refreshMatches tok)
          = none) :
    refresh_token db (.bearer tok) now cfg =
      (.error (.Authentication "Invalid refresh token"), db) ∧
    (AppError.Authentication "Invalid refresh token").statusCode = 401 := by
  refine ⟨?_, rfl⟩
  simp only [refresh_token, h]

/-- C6 witness: a store with an expired matching session and an unexpired
non-matching one is returned unchanged with the 401 error. -/
theorem refresh_no_match_leaves_store_unchanged_witness :
    refresh_token dbNoMatch (.bearer presentedTok) 0 defaultConfig =
      (.error (.Authentication "Invalid refresh token"), dbNoMatch) ∧
    (AppError.Authentication "Invalid refresh token").statusCode = 401 :=
  refresh_no_match_leaves_store_unchanged dbNoMatch presentedTok 0 defaultConfig (by decide)

/-- C7: VerifyAccessToken rejects a token signed with a different secret, a
token whose expiry is in the past, and a structurally malformed token; each
rejection is an error carrying HTTP status 401, and no claims are returned. -/
theorem verify_token_rejects_invalid (claims : Claims) (s s₂ raw : String) (now : Int) :
    (s₂ ≠ s →
      verify_token (encodeJwt s₂ claims) s now = .error (.Jwt "InvalidSignature")) ∧
    (claims.exp < now →
      verify_token (encodeJwt s claims) s now = .error (.Jwt "ExpiredSignature")) ∧
    verify_token (.malformed raw) s now = .error (.Jwt "InvalidToken") ∧
    (AppError.Jwt "InvalidSignature").statusCode = 401 ∧
    (AppError.Jwt "ExpiredSignature").statusCode = 401 ∧
    (AppError.Jwt "InvalidToken").statusCode = 401 := by
  refine ⟨?_, ?_, rfl, rfl, rfl, rfl⟩
  · intro hne
    simp [verify_token, decodeJwt, encodeJwt, hne]
  · intro hexp
    simp [verify_token, decodeJwt, encodeJwt, hexp]

/-- C7 witness: a concrete claim set rejected in all three ways. -/
theorem verify_token_rejects_invalid_witness :
    verify_token
        (encodeJwt "other-secret" { sub := "1", email := "a@x.com", role := .User
                                    exp := 10, iat := 0 })
        "the-secret" 100 = .error (.Jwt "InvalidSignature") ∧
    verify_token
        (encodeJwt "the-secret" { sub := "1", email := "a@x.com", role := .User
                                  exp := 10, iat := 0 })
        "the-secret" 100 = .error (.Jwt "ExpiredSignature") ∧
    verify_token (.malformed "xx.yy") "the-secret" 100 = .error (.Jwt "InvalidToken") := by
  have h := verify_token_rejects_invalid
    { sub := "1", email := "a@x.com", role := .User, exp := 10, iat := 0 }
    "the-secret" "other-secret" "xx.yy" 100
  exact ⟨h.1 (by decide), h.2.1 (by decide), h.2.2.1⟩

/-- C9: if the bearer token resolves to a live user, then whenever that
user's role is not `Admin` the admin middleware fails with
`Authorization "Admin access required"` (403, code AUTHORIZATION_ERROR)
whatever the downstream handler is, and whenever the middleware succeeds the
resolved user's role is `Admin` and the result is the downstream handler's. -/
theorem admin_middleware_rejects_non_admin {ρ : Type} (db : Store) (tok : Token)
    (now : Int) (cfg : Config) (next : User → Claims → ρ) (user : User)
    (hu : get_user_from_token tok cfg.jwt_secret db now = .ok user) :
    (user.role ≠ UserRole.Admin →
      admin_auth_middleware db (.bearer tok) now cfg next =
        .error (.Authorization "Admin access required") ∧
      (AppError.Authorization "Admin access required").statusCode = 403 ∧
      (AppError.Authorization "Admin access required").errorCode = "AUTHORIZATION_ERROR") ∧
    (∀ r : ρ, admin_auth_middleware db (.bearer tok) now cfg next = .ok r →
      user.role = UserRole.Admin ∧
      ∃ claims, verify_token tok cfg.jwt_secret now = .ok claims ∧ r = next user claims) := by
  obtain ⟨claims, hvt⟩ : ∃ claims, verify_token tok cfg.jwt_secret now = .ok claims := by
    unfold get_user_from_token at hu
    cases hv : verify_token tok cfg.jwt_secret now with
    | error e => rw [hv] at hu; exact absurd hu (by simp)
    | ok c => exact ⟨c, rfl⟩
  constructor
  · intro hr
    refine ⟨?_, rfl, rfl⟩
    simp [admin_auth_middleware, hu, hvt, hr]
  · intro r hok
    simp only [admin_auth_middleware, hu, hvt] at hok
    by_cases hrole : user.role = UserRole.Admin
    · rw [if_pos hrole] at hok
      simp only [Except.ok.injEq] at hok
      exact ⟨hrole, claims, hvt, hok.symm⟩
    · rw [if_neg hrole] at hok
      exact absurd hok (by simp)

/-- C9 witness: a valid token for the non-admin `userA` is rejected by the
admin middleware with the 403 AUTHORIZATION_ERROR response. -/
theorem admin_middleware_rejects_non_admin_witness :
    admin_auth_middleware storeA
        (.bearer (encodeJwt defaultConfig.jwt_secret
          { sub := "1", email := "a@x.com", role := .User, exp := 100, iat := 0 }))
        0 defaultConfig (fun _ _ => (0 : Nat)) =
      .error (.Authorization "Admin access required") ∧
    (AppError.Authorization "Admin access required").statusCode = 403 ∧
    (AppError.Authorization "Admin access required").errorCode = "AUTHORIZATION_ERROR" :=
  (admin_middleware_rejects_non_admin storeA
      (encodeJwt defaultConfig.jwt_secret
        { sub := "1", email := "a@x.com", role := .User, exp := 100, iat := 0 })
      0 defaultConfig (fun _ _ => (0 : Nat)) userA rfl).1 (by decide)

/-- Helper: the refresh scan predicate holds exactly on sessions storing the
ideal hash of the presented token. -/
theorem refreshMatches_eq_true_iff (tok : Token) (s : UserSession) :
    refreshMatches tok s = true ↔ s.token_hash = Hashed.hashOf tok := by
  cases h : s.token_hash with
  | hashOf p =>
    simp only [refreshMatches, bcryptVerify, h, Except.toOption, Option.getD_some,
      decide_eq_true_eq, Hashed.hashOf.injEq]
    exact eq_comm
  | malformed raw =>
    simp [refreshMatches, bcryptVerify, h, Except.toOption]

/-- Helper: the no-match branch of the refresh handler rejects with the
AuthenticationError and returns the store untouched. -/
theorem refresh_token_of_find_none (db : Store) (tok : Token) (now : Int) (cfg : Config)
    (h : (db.sessions.filter (fun s => now < s.expires_at)).find? (refreshMatches tok)
          = none) :
    refresh_token db (.bearer tok) now cfg =
      (.error (.Authentication "Invalid refresh token"), db) := by
  simp only [refresh_token, h]

/-- Helper: inversion of a successful refresh: some unexpired session was the
first hash match, its user was found, and the result store rotates exactly
the rows carrying that session's id. -/
theorem refresh_token_ok_inv (db : Store) (tok : Token) (now : Int) (cfg : Config)
    (resp : AuthResponse) (db' : Store)
    (hrun : refresh_token db (.bearer tok) now cfg = (.ok resp, db')) :
    ∃ s u,
      (db.sessions.filter (fun s => now < s.expires_at)).find? (refreshMatches tok)
        = some s ∧
      findUserById db.users s.user_id = some u ∧
      db' = { db with sessions := db.sessions.map (fun s₀ =>
        if s₀.id == s.id then
          { s₀ with
            token_hash := bcryptHash (generate_refresh_token u cfg.jwt_secret
              cfg.auth.refresh_token_expiry_days now)
            expires_at := now + cfg.auth.refresh_token_expiry_days * 86400 }
        else s₀) } := by
  cases hfind : (db.sessions.filter (fun s => now < s.expires_at)).find? (refreshMatches tok) with
  | none =>
    rw [refresh_token_of_find_none db tok now cfg hfind] at hrun
    exact absurd hrun (by simp)
  | some s =>
    cases huser : findUserById db.users s.user_id with
    | none =>
      simp only [refresh_token, hfind, huser] at hrun
      exact absurd hrun (by simp)
    | some u =>
      simp only [refresh_token, hfind, huser, Prod.mk.injEq] at hrun
      exact ⟨s, u, rfl, huser, hrun.2.symm⟩

/-- C3 counterexample: with an unexpired session matching the presented
token whose owning user id (99) has no user row, Refresh does not succeed:
it returns the `Database` error (sqlx `RowNotFound` from `fetch_one`,
surfaced as HTTP 500), so no new token pair is issued. -/
theorem refresh_missing_user_cex :
    refresh_token dbOrphan (.bearer presentedTok) 0 defaultConfig =
      (.error (.Database "RowNotFound"), dbOrphan) ∧
    (refresh_token dbOrphan (.bearer presentedTok) 0 defaultConfig).1.isOk = false ∧
    (AppError.Database "RowNotFound").statusCode = 500 :=
  ⟨rfl, rfl, rfl⟩

/-- C3 (amended): whenever the presented token matches an unexpired session
whose user row is gone, Refresh fails with the `Database` RowNotFound error
(HTTP 500) — before any rotation, leaving the store unchanged. -/
theorem refresh_missing_user_fails_database_error (db : Store) (tok : Token) (now : Int)
    (cfg : Config) (s : UserSession)
    (hfind : (db.sessions.filter (fun s => now < s.expires_at)).find? (refreshMatches tok)
        = some s)
    (huser : findUserById db.users s.user_id = none) :
    refresh_token db (.bearer tok) now cfg = (.error (.Database "RowNotFound"), db) ∧
    (AppError.Database "RowNotFound").statusCode = 500 ∧
    ∀ r : AuthResponse, (refresh_token db (.bearer tok) now cfg).1 ≠ .ok r := by
  have h : refresh_token db (.bearer tok) now cfg = (.error (.Database "RowNotFound"), db) := by
    simp only [refresh_token, hfind, huser]
  refine ⟨h, rfl, ?_⟩
  intro r hr
  rw [h] at hr
  exact absurd hr (by simp)

/-- C3 witness: the amended theorem applied to the orphan-session store. -/
theorem refresh_missing_user_fails_database_error_witness :
    refresh_token dbOrphan (.bearer presentedTok) 0 defaultConfig =
      (.error (.Database "RowNotFound"), dbOrphan) ∧
    (AppError.Database "RowNotFound").statusCode = 500 :=
  have h := refresh_missing_user_fails_database_error dbOrphan presentedTok 0 defaultConfig
    sessOrphan (by decide) rfl
  ⟨h.1, h.2.1⟩

/-- C8 counterexample: a stored session hash on which the hasher itself
errors is not surfaced as an internal 500 during Refresh: the error is
swallowed (`unwrap_or(false)`), the session counts as a non-match, and
Refresh fails with `Authentication` (HTTP 401, not 500). -/
theorem refresh_hasher_error_cex :
    bcryptVerify presentedTok sessBadHash.token_hash = .error "Invalid hash format" ∧
    refresh_token dbBadHash (.bearer presentedTok) 0 defaultConfig =
      (.error (.Authentication "Invalid refresh token"), dbBadHash) ∧
    (AppError.Authentication "Invalid refresh token").statusCode = 401 ∧
    (AppError.Authentication "Invalid refresh token").statusCode ≠ 500 :=
  ⟨rfl, rfl, rfl, by decide⟩

/-- C8 (amended): whenever the hasher fails (returns an error, not a
verdict) on every unexpired session it is compared against, Refresh treats
each failure as a non-match and rejects with `Authentication` (401), with
the store unchanged — the hasher failure is never surfaced as a 500. -/
theorem refresh_hasher_error_treated_as_non_match (db : Store) (tok : Token) (now : Int)
    (cfg : Config)
    (h : ∀ s ∈ db.sessions.filter (fun s => now < s.expires_at),
        ∃ e, bcryptVerify tok s.token_hash = Except.error e) :
    refresh_token db (.bearer tok) now cfg =
      (.error (.Authentication "Invalid refresh token"), db) ∧
    (AppError.Authentication "Invalid refresh token").statusCode = 401 := by
  have hnone : (db.sessions.filter (fun s => now < s.expires_at)).find? (refreshMatches tok)
      = none := by
    rw [List.find?_eq_none]
    intro s hs
    obtain ⟨e, he⟩ := h s hs
    simp [refreshMatches, he, Except.toOption]
  exact ⟨refresh_token_of_find_none db tok now cfg hnone, rfl⟩

/-- C8 witness: the amended theorem applied to the malformed-hash store. -/
theorem refresh_hasher_error_treated_as_non_match_witness :
    refresh_token dbBadHash (.bearer presentedTok) 0 defaultConfig =
      (.error (.Authentication "Invalid refresh token"), dbBadHash) ∧
    (AppError.Authentication "Invalid refresh token").statusCode = 401 :=
  refresh_hasher_error_treated_as_non_match dbBadHash presentedTok 0 defaultConfig
    (by
      intro s hs
      have : s = sessBadHash := by
        simpa [dbBadHash, sessBadHash] using hs
      rw [this]
      exact ⟨"Invalid hash format", rfl⟩)

/-- C5: sequential rotation safety. If a Refresh with token `t` succeeds and
rotates the matched session, then — provided `t`'s hash occurred in at most
one stored session row and the freshly minted refresh token differs from
`t` — presenting the same old token `t` again fails with
`Authentication "Invalid refresh token"` (401): it no longer verifies
against any unexpired session. -/
theorem refresh_rotation_invalidates_old_token (db : Store) (tok : Token) (now : Int)
    (cfg : Config) (resp : AuthResponse) (db' : Store)
    (hrun : refresh_token db (.bearer tok) now cfg = (.ok resp, db'))
    (huniq : ∀ a ∈ db.sessions, ∀ b ∈ db.sessions,
        a.token_hash = Hashed.hashOf tok → b.token_hash = Hashed.hashOf tok → a = b)
    (hfresh : ∀ u : User,
        generate_refresh_token u cfg.jwt_secret cfg.auth.refresh_token_expiry_days now
          ≠ tok) :
    refresh_token db' (.bearer tok) now cfg =
      (.error (.Authentication "Invalid refresh token"), db') ∧
    (AppError.Authentication "Invalid refresh token").statusCode = 401 := by
  obtain ⟨s, u, hfind, huser, hdb'⟩ := refresh_token_ok_inv db tok now cfg resp db' hrun
  have hsmem : s ∈ db.sessions := (List.mem_filter.mp (List.mem_of_find?_eq_some hfind)).1
  have hsmatch : s.token_hash = Hashed.hashOf tok :=
    (refreshMatches_eq_true_iff tok s).mp (List.find?_some hfind)
  have hnone : (db'.sessions.filter (fun x => now < x.expires_at)).find? (refreshMatches tok)
      = none := by
    rw [List.find?_eq_none]
    intro e he hmatch
    have he1 : e ∈ db'.sessions := (List.mem_filter.mp he).1
    rw [hdb'] at he1
    simp only [List.mem_map] at he1
    obtain ⟨s₀, hs₀, hfe⟩ := he1
    have hhash : e.token_hash = Hashed.hashOf tok := (refreshMatches_eq_true_iff tok e).mp hmatch
    by_cases hid : (s₀.id == s.id) = true
    · rw [if_pos hid] at hfe
      rw [← hfe] at hhash
      simp only [bcryptHash, Hashed.hashOf.injEq] at hhash
      exact hfresh u hhash
    · rw [if_neg hid] at hfe
      rw [← hfe] at hhash
      have hs₀s : s₀ = s := huniq s₀ hs₀ s hsmem hhash hsmatch
      rw [hs₀s] at hid
      simp at hid
  exact ⟨refresh_token_of_find_none db' tok now cfg hnone, rfl⟩

/-- C5 witness: a concrete successful rotation after which the old token is
rejected. -/
theorem refresh_rotation_invalidates_old_token_witness :
    refresh_token (refresh_token dbRotate (.bearer presentedTok) 0 defaultConfig).2
        (.bearer presentedTok) 0 defaultConfig =
      (.error (.Authentication "Invalid refresh token"),
       (refresh_token dbRotate (.bearer presentedTok) 0 defaultConfig).2) ∧
    (AppError.Authentication "Invalid refresh token").statusCode = 401 :=
  by
  obtain ⟨resp, hrun⟩ :
      ∃ r, refresh_token dbRotate (.bearer presentedTok) 0 defaultConfig =
        (.ok r, (refresh_token dbRotate (.bearer presentedTok) 0 defaultConfig).2) :=
    ⟨_, rfl⟩
  exact refresh_rotation_invalidates_old_token dbRotate presentedTok 0 defaultConfig resp
    (refresh_token dbRotate (.bearer presentedTok) 0 defaultConfig).2 hrun
    (by
      intro a ha b hb hha hhb
      have ha' : a = sessA := by simpa [dbRotate] using ha
      have hb' : b = sessA := by simpa [dbRotate] using hb
      rw [ha', hb'])
    (by
      intro u h
      simp [generate_refresh_token, encodeJwt, presentedTok] at h)

end VAGateway
